import Mathlib

/- Verification of the cognitive-compatibility matching engine of the tutoring
   marketplace backend (Django).  The Lean definitions below are shallow
   embeddings of the Python source: `learner/assessment_utils.py`,
   `learner/services/matching_service.py`, `learner/services/ai_service.py`,
   `learner/views.py` and the data model of `learner/models.py` /
   `tutor/models.py`.  Machine floats are modelled by ℚ (every constant in the
   scoring code is an exact decimal, and every claim concerns order or range
   facts that are exact at this granularity); Python dict access is modelled by
   association-list lookup returning `Option`, and raising code paths by
   `Except`. -/

namespace TutorMatch

/-! Section 1: `learner/assessment_utils.py` — behavioral scoring engine. -/

/-- Nearest-integer rounding with ties to even, as Python builtin `round`. -/
def pyRound (x : ℚ) : ℤ :=
  let f := ⌊x⌋
  let d := x - f
  if d < 1/2 then f
  else if 1/2 < d then f + 1
  else if 2 ∣ f then f else f + 1

/-- Embeds `clamp_score`: `max(0, min(100, int(round(score))))`. -/
def clamp_score (x : ℚ) : ℤ := max 0 (min 100 (pyRound x))

namespace ScoringConstants

/-- Embeds `ScoringConstants.CONSERVATION_CORRECT_BASE`. -/
def CONSERVATION_CORRECT_BASE : ℚ × ℚ := (70, 85)

/-- Embeds `ScoringConstants.CONSERVATION_INCORRECT_BASE` (a dict keyed by choice). -/
def CONSERVATION_INCORRECT_BASE : List (String × (ℚ × ℚ)) :=
  [("A", (25, 35)), ("B", (30, 40))]

/-- Embeds `ScoringConstants.CONFIDENCE_HIGH_THRESHOLD`. -/
def CONFIDENCE_HIGH_THRESHOLD : ℤ := 80

/-- Embeds `ScoringConstants.CONFIDENCE_LOW_THRESHOLD`. -/
def CONFIDENCE_LOW_THRESHOLD : ℤ := 40

/-- Embeds `ScoringConstants.CONFIDENCE_CORRECT_HIGH_BONUS`. -/
def CONFIDENCE_CORRECT_HIGH_BONUS : ℚ × ℚ := (10, 15)

/-- Embeds `ScoringConstants.CONFIDENCE_CORRECT_LOW_BONUS`. -/
def CONFIDENCE_CORRECT_LOW_BONUS : ℚ × ℚ := (0, 5)

/-- Embeds `ScoringConstants.CONFIDENCE_INCORRECT_HIGH_PENALTY`. -/
def CONFIDENCE_INCORRECT_HIGH_PENALTY : ℚ := 10

/-- Embeds `ScoringConstants.CLASSIFICATION_BASE_SCORES`. -/
def CLASSIFICATION_BASE_SCORES : List (String × (ℚ × ℚ)) :=
  [("shape", (75, 85)), ("mixed", (55, 70)), ("color", (35, 50)), ("random", (0, 25))]

/-- Embeds `ScoringConstants.CLASSIFICATION_CORRECTION_PENALTIES`; the Python
upper bound `float(inf)` is modelled by `none`. -/
def CLASSIFICATION_CORRECTION_PENALTIES : List ((ℤ × Option ℤ) × ℚ) :=
  [((0, some 1), 0), ((2, some 3), 5), ((4, some 6), 10), ((7, some 10), 15), ((11, none), 20)]

/-- Embeds `ScoringConstants.SERIATION_CORRECT_SCORES`. -/
def SERIATION_CORRECT_SCORES : List ((ℤ × Option ℤ) × (ℚ × ℚ)) :=
  [((0, some 3), (85, 100)), ((4, some 7), (70, 84)), ((8, some 12), (55, 69)),
   ((13, some 20), (40, 54)), ((21, none), (30, 39))]

/-- Embeds `ScoringConstants.SERIATION_INCORRECT_SCORES`. -/
def SERIATION_INCORRECT_SCORES : List ((ℤ × Option ℤ) × (ℚ × ℚ)) :=
  [((0, some 8), (25, 35)), ((9, some 15), (15, 24)), ((16, none), (0, 14))]

/-- Embeds `ScoringConstants.REVERSIBILITY_SCORES`. -/
def REVERSIBILITY_SCORES : List (String × (ℚ × ℚ)) :=
  [("yes", (75, 85)), ("not_sure", (45, 60)), ("no", (20, 35))]

/-- Embeds `ScoringConstants.HYPOTHETICAL_SCORES`. -/
def HYPOTHETICAL_SCORES : List (String × (ℚ × ℚ)) :=
  [("D", (85, 95)), ("B", (65, 78)), ("A", (38, 52)), ("C", (18, 32)), ("other", (0, 15))]

/-- Embeds `ScoringConstants.PERFORMANCE_BANDS`: five inclusive integer ranges. -/
def PERFORMANCE_BANDS : List (ℤ × ℤ) :=
  [(0, 20), (21, 40), (41, 60), (61, 80), (81, 100)]

/-- Embeds `ScoringConstants.PIAGET_THRESHOLDS`. -/
def PIAGET_THRESHOLDS : List ((ℤ × ℤ) × String) :=
  [((0, 30), "preoperational"), ((31, 55), "concrete"),
   ((56, 75), "transition_formal"), ((76, 100), "formal")]

end ScoringConstants

/-- Membership of an integer in a range whose upper bound may be infinite
(`min_corr <= n <= max_corr` with `float(inf)` as `none`). -/
def inRange (r : ℤ × Option ℤ) (n : ℤ) : Bool :=
  decide (r.1 ≤ n) && (match r.2 with | none => true | some hi => decide (n ≤ hi))

/-- Embeds the `for`-loop body of `get_performance_band`: 1-based index of the
first band of the list that contains the score, `none` when no band does. -/
def bandFind (i : ℕ) : List (ℤ × ℤ) → ℤ → Option ℕ
  | [], _ => none
  | (lo, hi) :: rest, s => if lo ≤ s ∧ s ≤ hi then some i else bandFind (i + 1) rest s

/-- Embeds `get_performance_band` up to (but not including) its final
`return 1` fallback. -/
def get_performance_bandOpt (s : ℤ) : Option ℕ :=
  bandFind 1 ScoringConstants.PERFORMANCE_BANDS s

/-- Embeds `get_performance_band` including the fallback to band 1. -/
def get_performance_band (s : ℤ) : ℕ :=
  (get_performance_bandOpt s).getD 1

/-- Embeds `calculate_conservation_score`. -/
def calculate_conservation_score (choice : String) (confidence : Option ℤ) : ℤ :=
  if choice = "C" then
    let b := ScoringConstants.CONSERVATION_CORRECT_BASE
    let base : ℚ := (b.1 + b.2) / 2
    let base :=
      match confidence with
      | some c =>
        if ScoringConstants.CONFIDENCE_HIGH_THRESHOLD ≤ c then
          let bo := ScoringConstants.CONFIDENCE_CORRECT_HIGH_BONUS
          base + (bo.1 + bo.2) / 2
        else if c < ScoringConstants.CONFIDENCE_LOW_THRESHOLD then
          let bo := ScoringConstants.CONFIDENCE_CORRECT_LOW_BONUS
          base + (bo.1 + bo.2) / 2
        else base
      | none => base
    clamp_score base
  else
    let b := (ScoringConstants.CONSERVATION_INCORRECT_BASE.lookup choice).getD (20, 30)
    let base : ℚ := (b.1 + b.2) / 2
    let base :=
      match confidence with
      | some c =>
        if ScoringConstants.CONFIDENCE_HIGH_THRESHOLD ≤ c then
          base - ScoringConstants.CONFIDENCE_INCORRECT_HIGH_PENALTY
        else base
      | none => base
    clamp_score base

/-- Embeds `calculate_classification_score`. -/
def calculate_classification_score (rule : String) (corrections : ℤ) : ℤ :=
  let b := (ScoringConstants.CLASSIFICATION_BASE_SCORES.lookup rule).getD (0, 25)
  let base : ℚ := (b.1 + b.2) / 2
  let penalty :=
    ((ScoringConstants.CLASSIFICATION_CORRECTION_PENALTIES.find?
        (fun p => inRange p.1 corrections)).map Prod.snd).getD 0
  clamp_score (base - penalty)

/-- Embeds `calculate_seriation_score` (including the `clamp_score(20)` fallback). -/
def calculate_seriation_score (isCorrect : Bool) (swapCount : ℤ) : ℤ :=
  let table :=
    if isCorrect then ScoringConstants.SERIATION_CORRECT_SCORES
    else ScoringConstants.SERIATION_INCORRECT_SCORES
  match table.find? (fun p => inRange p.1 swapCount) with
  | some p => clamp_score ((p.2.1 + p.2.2) / 2)
  | none => clamp_score 20

/-- Substring test on strings (the Python `in` operator for str). -/
def containsSub (needle hay : String) : Bool :=
  hay.data.tails.any (fun t => needle.data.isPrefixOf t)

/-- Embeds the `positive_keywords` list of `calculate_reversibility_score`. -/
def positiveKeywords : List String :=
  ["undo", "reverse", "back", "opposite", "cancel", "return", "restore", "original",
   "same as before"]

/-- Embeds the `negative_keywords` list of `calculate_reversibility_score`. -/
def negativeKeywords : List String :=
  ["permanent", "forever", "cant", "can\x27t", "impossible", "never", "always", "stuck"]

/-- Embeds `calculate_reversibility_score`; `none` and the empty string are both
falsy for `if explanation:`. -/
def calculate_reversibility_score (answer : String) (explanation : Option String) : ℤ :=
  let b := (ScoringConstants.REVERSIBILITY_SCORES.lookup answer).getD (10, 25)
  let base : ℚ := (b.1 + b.2) / 2
  match explanation with
  | none => clamp_score base
  | some e =>
    if e = "" then clamp_score base
    else
      let el := e.toLower
      let pos := (positiveKeywords.filter (fun k => containsSub k el)).length
      let neg := (negativeKeywords.filter (fun k => containsSub k el)).length
      if neg < pos then clamp_score (base + 5)
      else if pos < neg then clamp_score (base - 5)
      else clamp_score base

/-- Embeds `calculate_hypothetical_thinking_score`. -/
def calculate_hypothetical_thinking_score (choice : String) : ℤ :=
  let b := (ScoringConstants.HYPOTHETICAL_SCORES.lookup choice).getD
    ((ScoringConstants.HYPOTHETICAL_SCORES.lookup "other").getD (0, 15))
  clamp_score ((b.1 + b.2) / 2)

/-- One per-question sub-dict of the assessment payload, with the typed fields
that `compute_scores` reads.  A field holds `none` when the key is absent from
the dict (dict subscript then raises `KeyError`, `.get` returns `None`). -/
structure QSection where
  choice : Option String := none
  confidence : Option ℤ := none
  rule : Option String := none
  corrections : Option ℤ := none
  is_correct : Option Bool := none
  swap_count : Option ℤ := none
  answer : Option String := none
  explanation : Option String := none
deriving Repr, DecidableEq

/-- The computed fields that `compute_scores` writes onto the
`CognitiveAssessment` instance before saving (prose summary fields omitted). -/
structure AssessmentScores where
  conservation : ℤ
  classification : ℤ
  seriation : ℤ
  reversibility : ℤ
  hypothetical_thinking : ℤ
  piaget_construct_score : ℤ
  piaget_stage : String
  prefers_structure : Bool
  bands : List (String × ℕ)
deriving Repr, DecidableEq

/-- Python dict subscript `d[k]`: `KeyError` (here `Except.error`) when absent. -/
def req {α : Type} (o : Option α) : Except Unit α :=
  match o with
  | some a => Except.ok a
  | none => Except.error ()

/-- Embeds `compute_scores(assessment, payload)`.  The payload is the dict that
the view passes in (`serializer.validated_data`); `compute_scores` reads the
keys `s2` … `s6` from it by subscript, so a missing key raises `KeyError`,
modelled as `Except.error`. -/
def compute_scores (payload : List (String × QSection)) : Except Unit AssessmentScores := do
  let s2 ← req (payload.lookup "s2")
  let s3 ← req (payload.lookup "s3")
  let s4 ← req (payload.lookup "s4")
  let s5 ← req (payload.lookup "s5")
  let s6 ← req (payload.lookup "s6")
  let s2choice ← req s2.choice
  let s3rule ← req s3.rule
  let s3corr ← req s3.corrections
  let s4correct ← req s4.is_correct
  let s4swap ← req s4.swap_count
  let s5answer ← req s5.answer
  let s6choice ← req s6.choice
  let conservation := calculate_conservation_score s2choice s2.confidence
  let classification := calculate_classification_score s3rule s3corr
  let seriation := calculate_seriation_score s4correct s4swap
  let reversibility := calculate_reversibility_score s5answer s5.explanation
  let hypothetical := calculate_hypothetical_thinking_score s6choice
  let weighted : ℚ :=
    (conservation : ℚ) * 1 + (classification : ℚ) * 1 + (seriation : ℚ) * 1 +
      (reversibility : ℚ) * 1 + (hypothetical : ℚ) * (6/5)
  let piaget := clamp_score (weighted / (1 + 1 + 1 + 1 + 6/5))
  let stage :=
    ((ScoringConstants.PIAGET_THRESHOLDS.find?
        (fun p => decide (p.1.1 ≤ piaget) && decide (piaget ≤ p.1.2))).map Prod.snd).getD
      "preoperational"
  Except.ok
    { conservation := conservation
      classification := classification
      seriation := seriation
      reversibility := reversibility
      hypothetical_thinking := hypothetical
      piaget_construct_score := piaget
      piaget_stage := stage
      prefers_structure := decide (hypothetical ≤ seriation)
      bands :=
        [("conservation", get_performance_band conservation),
         ("classification", get_performance_band classification),
         ("seriation", get_performance_band seriation),
         ("reversibility", get_performance_band reversibility),
         ("hypothetical_thinking", get_performance_band hypothetical),
         ("overall", get_performance_band piaget)] }

/-- The shape of `CognitiveAssessmentInputSerializer.validated_data`: a dict
whose keys are exactly the five required question fields of the serializer
(`question1_conservation` … `question5_hypothetical`). -/
structure ValidatedPayload where
  question1_conservation : QSection
  question2_classification : QSection
  question3_seriation : QSection
  question4_reversibility : QSection
  question5_hypothetical : QSection
deriving Repr, DecidableEq

/-- The dict carried by a validated serializer payload. -/
def ValidatedPayload.toDict (p : ValidatedPayload) : List (String × QSection) :=
  [("question1_conservation", p.question1_conservation),
   ("question2_classification", p.question2_classification),
   ("question3_seriation", p.question3_seriation),
   ("question4_reversibility", p.question4_reversibility),
   ("question5_hypothetical", p.question5_hypothetical)]

/-! Section 2: `tutor/models.py` and `learner/services/matching_service.py` —
pedagogy fingerprint and compatibility scorer. -/

/-- A pedagogy trait segment (`SEGMENT_CHOICES` of `TeacherPedagogyProfile`). -/
inductive Trait
  | HIGH
  | LOW
deriving Repr, DecidableEq

/-- The 8-trait pedagogy fingerprint of a qualified tutor.  `_get_qualified_tutors`
filters on all eight fields being non-null, so every tutor that reaches the
scorer has all traits set; the nullable column is therefore modelled by `Trait`
rather than `Option Trait`. -/
structure PedagogyProfile where
  tcs : Trait
  tspi : Trait
  twmls : Trait
  tpo : Trait
  tecp : Trait
  tet : Trait
  tics : Trait
  trd : Trait
deriving Repr, DecidableEq

/-- The learner cognitive dict built by `_prepare_learner_profile` (0-10 scale). -/
structure Cognitive where
  confidence : ℚ
  anxiety : ℚ
  processing_speed : ℚ
  working_memory : ℚ
  precision : ℚ
  error_correction : ℚ
  exploration : ℚ
  impulsivity : ℚ
  logical_reasoning : ℚ
  hypothetical_reasoning : ℚ
deriving Repr, DecidableEq

/-- Confidence/anxiety block of `_calculate_enhanced_cognitive_score`. -/
def ruleConfidenceAnxiety (cog : Cognitive) (p : PedagogyProfile) : ℚ :=
  let conf := cog.confidence
  let anx := cog.anxiety
  if conf ≤ 4 ∨ 7 ≤ anx then
    if p.tcs = Trait.HIGH then 1 + (if 8 ≤ anx then 0.2 else 0.1) else 0.3
  else if 7 ≤ conf ∧ anx ≤ 4 then
    if p.tcs = Trait.LOW then 1 + (if 8 ≤ conf then 0.2 else 0.1) else 0.3
  else if 4 < conf ∧ conf < 7 ∧ 4 < anx ∧ anx < 7 then
    if p.tcs = Trait.HIGH then 0.8 else 0.5
  else 0

/-- Processing-speed block of `_calculate_enhanced_cognitive_score`. -/
def ruleProcessingSpeed (cog : Cognitive) (p : PedagogyProfile) : ℚ :=
  let ps := cog.processing_speed
  if ps ≤ 4 ∧ p.tspi = Trait.HIGH then 1 + (if ps ≤ 2 then 0.2 else 0.1)
  else if 7 ≤ ps ∧ p.tspi = Trait.LOW then 1 + (if 8 ≤ ps then 0.2 else 0.1)
  else if 4 < ps ∧ ps < 7 ∧ p.tspi = Trait.HIGH then 0.8
  else if 4 < ps ∧ ps < 7 ∧ p.tspi = Trait.LOW then 0.5
  else 0

/-- Working-memory block of `_calculate_enhanced_cognitive_score`. -/
def ruleWorkingMemory (cog : Cognitive) (p : PedagogyProfile) : ℚ :=
  let wm := cog.working_memory
  if wm ≤ 4 ∧ p.twmls = Trait.HIGH then 1 + (if wm ≤ 2 then 0.2 else 0.1)
  else if 7 ≤ wm ∧ p.twmls = Trait.LOW then 1 + (if 8 ≤ wm then 0.2 else 0.1)
  else if 4 < wm ∧ wm < 7 ∧ p.twmls = Trait.HIGH then 0.8
  else if 4 < wm ∧ wm < 7 ∧ p.twmls = Trait.LOW then 0.5
  else 0

/-- Precision block of `_calculate_enhanced_cognitive_score`. -/
def rulePrecision (cog : Cognitive) (p : PedagogyProfile) : ℚ :=
  let prec := cog.precision
  if prec ≤ 4 ∧ p.tpo = Trait.HIGH then 1 + (if prec ≤ 2 then 0.2 else 0.1)
  else if 7 ≤ prec ∧ p.tpo = Trait.LOW then 1 + (if 8 ≤ prec then 0.2 else 0.1)
  else if 4 < prec ∧ prec < 7 ∧ p.tpo = Trait.HIGH then 0.8
  else if 4 < prec ∧ prec < 7 ∧ p.tpo = Trait.LOW then 0.5
  else 0

/-- Error-correction block of `_calculate_enhanced_cognitive_score`. -/
def ruleErrorCorrection (cog : Cognitive) (p : PedagogyProfile) : ℚ :=
  let ec := cog.error_correction
  if ec ≤ 4 ∧ p.tecp = Trait.HIGH then 1 + (if ec ≤ 2 then 0.2 else 0.1)
  else if 7 ≤ ec ∧ p.tecp = Trait.LOW then 1 + (if 8 ≤ ec then 0.2 else 0.1)
  else if 4 < ec ∧ ec < 7 ∧ p.tecp = Trait.HIGH then 0.8
  else if 4 < ec ∧ ec < 7 ∧ p.tecp = Trait.LOW then 0.5
  else 0

/-- Exploration block of `_calculate_enhanced_cognitive_score` (reads the
learner precision value inside its middle branch, as the source does). -/
def ruleExploration (cog : Cognitive) (p : PedagogyProfile) : ℚ :=
  let e := cog.exploration
  let prec := cog.precision
  if 7 ≤ e ∧ p.tet = Trait.LOW then 1 + (if 8 ≤ e then 0.2 else 0.1)
  else if e ≤ 4 ∧ p.tet = Trait.HIGH then 1 + (if e ≤ 2 then 0.2 else 0.1)
  else if 4 < e ∧ e < 7 then
    if prec ≤ 4 ∧ p.tet = Trait.HIGH then 0.8
    else if 4 < prec ∧ p.tet = Trait.LOW then 0.8
    else 0.4
  else 0

/-- Impulsivity block of `_calculate_enhanced_cognitive_score`. -/
def ruleImpulsivity (cog : Cognitive) (p : PedagogyProfile) : ℚ :=
  let imp := cog.impulsivity
  if 7 ≤ imp ∧ p.tics = Trait.HIGH then 1 + (if 8 ≤ imp then 0.2 else 0.1)
  else if imp ≤ 4 ∧ p.tics = Trait.LOW then 1 + (if imp ≤ 2 then 0.2 else 0.1)
  else if 4 < imp ∧ imp < 7 ∧ p.tics = Trait.HIGH then 0.8
  else if 4 < imp ∧ imp < 7 ∧ p.tics = Trait.LOW then 0.5
  else 0

/-- Reasoning block of `_calculate_enhanced_cognitive_score` (composite of the
logical and hypothetical reasoning values). -/
def ruleReasoning (cog : Cognitive) (p : PedagogyProfile) : ℚ :=
  let reasoning := (cog.logical_reasoning + cog.hypothetical_reasoning) / 2
  if 7 ≤ reasoning ∧ p.trd = Trait.HIGH then 1 + (if 8 ≤ reasoning then 0.2 else 0.1)
  else if reasoning ≤ 4 ∧ p.trd = Trait.LOW then 1 + (if reasoning ≤ 2 then 0.2 else 0.1)
  else if 4 < reasoning ∧ reasoning < 7 ∧ p.trd = Trait.HIGH then 0.8
  else if 4 < reasoning ∧ reasoning < 7 ∧ p.trd = Trait.LOW then 0.5
  else 0

/-- Python `round(x, 1)` (one decimal place; every value this code rounds is an
exact multiple of 1/10, so the tie mode is immaterial here). -/
def roundTo1 (x : ℚ) : ℚ := (pyRound (10 * x) : ℚ) / 10

/-- Embeds `_calculate_enhanced_cognitive_score`: the sum of the eight rule
blocks, capped at 10.0 and rounded to one decimal. -/
def calculate_enhanced_cognitive_score (cog : Cognitive) (p : PedagogyProfile) : ℚ :=
  let total :=
    ruleConfidenceAnxiety cog p + ruleProcessingSpeed cog p + ruleWorkingMemory cog p +
      rulePrecision cog p + ruleErrorCorrection cog p + ruleExploration cog p +
      ruleImpulsivity cog p + ruleReasoning cog p
  roundTo1 (min total 10)

/-- Result of `json.loads` on the tutor subjects text field, at the granularity
`_calculate_subject_score` distinguishes. -/
inductive TutorSubjectsParse
  | parseFail
  | parsedList (xs : List String)
  | parsedStr (s : String)
  | parsedOther (truthy : Bool)
deriving Repr, DecidableEq

/-- Strip leading and trailing whitespace from a character list (Python
`str.strip()`). -/
def stripChars (l : List Char) : List Char :=
  ((l.dropWhile Char.isWhitespace).reverse.dropWhile Char.isWhitespace).reverse

/-- The per-element normalization `s.lower().strip()`. -/
def normalizeSubject (s : String) : String :=
  String.mk (stripChars (s.data.map Char.toLower))

/-- The set-overlap computation at the end of `_calculate_subject_score`:
`len(learner_set & tutor_set) / len(learner_set) * 10` on the lower-cased,
stripped, deduplicated subject sets. -/
def subjectOverlapScore (learner tutor : List String) : ℚ :=
  let learnerSet := (learner.map normalizeSubject).dedup
  let tutorSet := (tutor.map normalizeSubject).dedup
  let overlap := (learnerSet.filter (fun s => tutorSet.contains s)).length
  let total := learnerSet.length
  if 0 < total then (overlap : ℚ) / (total : ℚ) * 10 else 0

/-- Embeds `_calculate_subject_score`.  The first argument is the learner
subject list from `_prepare_learner_profile`; the second models the raw tutor
subjects field: `none` for a falsy string (`None` or empty), otherwise the
outcome of `json.loads`.  Only `json.JSONDecodeError`/`TypeError` from
`json.loads` are caught (→ score 0); a JSON string is iterated character by
character, and a truthy non-iterable JSON value raises `TypeError` outside the
`try`, modelled as `Except.error`. -/
def calculate_subject_score (learnerSubjects : List String)
    (tutorField : Option TutorSubjectsParse) : Except Unit ℚ :=
  if learnerSubjects.isEmpty then Except.ok 0
  else
    match tutorField with
    | none => Except.ok 0
    | some TutorSubjectsParse.parseFail => Except.ok 0
    | some (TutorSubjectsParse.parsedList xs) =>
      if xs.isEmpty then Except.ok 0
      else Except.ok (subjectOverlapScore learnerSubjects xs)
    | some (TutorSubjectsParse.parsedStr s) =>
      if s = "" then Except.ok 0
      else Except.ok (subjectOverlapScore learnerSubjects (s.data.map (fun c => String.mk [c])))
    | some (TutorSubjectsParse.parsedOther t) =>
      if t then Except.error () else Except.ok 0

/-- The inline price competitiveness formula of `_calculate_compatibility_scores`:
`max(0, 10 - float(price) / 2000 * 10)`. -/
def price_score (price : ℚ) : ℚ := max 0 (10 - price / 2000 * 10)

/-- A qualified tutor row as the matching service consumes it. -/
structure Tutor where
  id : String
  name : String
  lesson_price : ℚ
  subjects : Option TutorSubjectsParse
  pedagogy : PedagogyProfile
deriving Repr, DecidableEq

/-- One entry of `tutors_data` as built by `_calculate_compatibility_scores`
(the `pedagogy` copy used only for prompt text is omitted). -/
structure TutorData where
  id : String
  name : String
  price : ℚ
  cognitive_score : ℚ
  subject_score : ℚ
  price_score : ℚ
deriving Repr, DecidableEq

/-- The per-tutor body of the loop in `_calculate_compatibility_scores`. -/
def computeTutorData (cog : Cognitive) (learnerSubjects : List String) (t : Tutor) :
    Except Unit TutorData := do
  let cs := calculate_enhanced_cognitive_score cog t.pedagogy
  let ss ← calculate_subject_score learnerSubjects t.subjects
  Except.ok
    { id := t.id
      name := t.name
      price := t.lesson_price
      cognitive_score := cs
      subject_score := ss
      price_score := price_score t.lesson_price }

/-- Embeds `_calculate_compatibility_scores` (an uncaught exception from the
subject scorer propagates out). -/
def calculate_compatibility_scores (cog : Cognitive) (learnerSubjects : List String)
    (tutors : List Tutor) : Except Unit (List TutorData) :=
  tutors.mapM (computeTutorData cog learnerSubjects)

/-! Section 3: the fallback ranking (`_fallback_matching`). -/

/-- Lexicographic strict comparison of two 4-tuples, as Python tuple `<`. -/
def lexLT4 (a b : ℚ × ℚ × ℚ × ℚ) : Bool :=
  if a.1 < b.1 then true
  else if b.1 < a.1 then false
  else if a.2.1 < b.2.1 then true
  else if b.2.1 < a.2.1 then false
  else if a.2.2.1 < b.2.2.1 then true
  else if b.2.2.1 < a.2.2.1 then false
  else decide (a.2.2.2 < b.2.2.2)

/-- The sort key of `_fallback_matching`:
`(-cognitive_score, -subject_score, -random_factor, price)`. -/
def fbKey (t : TutorData) (r : ℚ) : ℚ × ℚ × ℚ × ℚ :=
  (-t.cognitive_score, -t.subject_score, -r, t.price)

/-- The total preorder `Python sorted` uses on (tutor, random_factor) pairs:
`a` may be placed before `b` iff the key of `b` is not strictly below the key
of `a`.  Python sort is stable, so ties keep input order, which is exactly what
a stable insertion sort with this relation produces. -/
def fbLE (a b : TutorData × ℚ) : Prop :=
  lexLT4 (fbKey b.1 b.2) (fbKey a.1 a.2) = false

instance : DecidableRel fbLE := fun a b => by unfold fbLE; infer_instance

/-- The `random_factor` assignment loop: tutor `i` receives
`random.random() * 0.5`, with `jitter i` modelling the `random.random()` draw. -/
def attachJitter (jitter : ℕ → ℚ) : ℕ → List TutorData → List (TutorData × ℚ)
  | _, [] => []
  | i, t :: ts => (t, jitter i * 0.5) :: attachJitter jitter (i + 1) ts

/-- One ranked match entry in the AI / fallback result dicts; every field is a
dict key that may be absent. -/
structure MatchEntry where
  tutor_id : Option String := none
  final_score : Option ℚ := none
  reasoning : Option String := none
  subject_explanation : Option String := none
deriving Repr, DecidableEq

/-- The reasoning text synthesized by `_fallback_matching` (numeric formatting
approximated by `toString`). -/
def fallbackReasoning (t : TutorData) : String :=
  "Cognitive compatibility: " ++ toString t.cognitive_score ++ "/8. Subject match: " ++
    toString t.subject_score ++ "/10."

/-- The ranking-result dict: `matches` plus the metadata keys the service sets. -/
structure RankResult where
  matchesList : List MatchEntry
  ai_processing_time_ms : ℚ
  cache_hit : Bool
deriving Repr, DecidableEq

/-- Embeds `_fallback_matching`: attach random factors, sort by
`(-cognitive_score, -subject_score, -random_factor, price)`, take the top 3,
and synthesize `final_score = cognitive_score * 10 + subject_score`. -/
def fallback_matching (tutorsData : List TutorData) (jitter : ℕ → ℚ) : RankResult :=
  let withR := attachJitter jitter 0 tutorsData
  let sortedTutors := List.insertionSort fbLE withR
  { matchesList :=
      (sortedTutors.take 3).map (fun tr =>
        { tutor_id := some tr.1.id
          final_score := some (tr.1.cognitive_score * 10 + tr.1.subject_score)
          reasoning := some (fallbackReasoning tr.1)
          subject_explanation := some "Basic subject overlap analysis" })
    ai_processing_time_ms := 0
    cache_hit := false }

/-! Section 4: `learner/services/ai_service.py` — collaborator call, cache, and
response assembly, and `learner/views.py` — the HTTP surface. -/

/-- What the ranking collaborator produced, as `get_tutor_matches` can
distinguish it after `_clean_ai_response`. -/
inductive OutputKind
  | notJson
  | jsonNonDict
  | jsonDict (ms : Option (List MatchEntry))
deriving Repr, DecidableEq

/-- Outcome of one attempt to consult the ranking collaborator. -/
inductive CollabOutcome
  | noClient
  | callFailure
  | output (k : OutputKind)
deriving Repr, DecidableEq

/-- Whether (and what) the call wrote to the result cache. -/
inductive CacheEffect
  | noStore
  | store (v : RankResult) (ttlSeconds : ℕ)
deriving Repr, DecidableEq

/-- Embeds `AIMatchingService.get_tutor_matches` (with a cache key present): a
stored value is returned as-is; otherwise an unavailable client, a raising API
call, un-parseable output, or JSON that is not an object all raise (the caller
falls back); a parsed JSON object is tagged `cache_hit = False`, cached for
3600 seconds, and returned.  `procTime` is the measured API latency. -/
def get_tutor_matches (cacheVal : Option RankResult) (outcome : CollabOutcome)
    (procTime : ℚ) : Except Unit RankResult × CacheEffect :=
  match cacheVal with
  | some v => (Except.ok v, CacheEffect.noStore)
  | none =>
    match outcome with
    | CollabOutcome.noClient => (Except.error (), CacheEffect.noStore)
    | CollabOutcome.callFailure => (Except.error (), CacheEffect.noStore)
    | CollabOutcome.output OutputKind.notJson => (Except.error (), CacheEffect.noStore)
    | CollabOutcome.output OutputKind.jsonNonDict => (Except.error (), CacheEffect.noStore)
    | CollabOutcome.output (OutputKind.jsonDict ms) =>
      let r : RankResult :=
        { matchesList := ms.getD [], ai_processing_time_ms := procTime, cache_hit := false }
      (Except.ok r, CacheEffect.store r 3600)

/-- The `match_details` sub-dict of one response entry (absent keys default via
`.get`). -/
structure MatchDetails where
  compatibility_score : ℚ
  reasoning : String
  subject_explanation : String
deriving Repr, DecidableEq

/-- One hydrated response entry (`tutor` stands for the serialized tutor row). -/
structure ResponseMatch where
  tutor : Tutor
  match_details : MatchDetails
deriving Repr, DecidableEq

/-- The value returned by `get_best_matches` on success. -/
structure MatchResponse where
  success : Bool
  matchesList : List ResponseMatch
deriving Repr, DecidableEq

/-- The hydration loop of `_prepare_response`: `match['tutor_id']` raises
`KeyError` when absent; an id that is not in the loaded tutor set is silently
dropped; `final_score`, `reasoning` and `subject_explanation` are read with
defaulting `.get`. -/
def prepareMatches (tutors : List Tutor) : List MatchEntry → Except Unit (List ResponseMatch)
  | [] => Except.ok []
  | m :: rest => do
    let tid ← req m.tutor_id
    let tail ← prepareMatches tutors rest
    match tutors.find? (fun t => t.id == tid) with
    | some t =>
      Except.ok
        ({ tutor := t
           match_details :=
             { compatibility_score := m.final_score.getD 0
               reasoning := m.reasoning.getD ""
               subject_explanation := m.subject_explanation.getD "" } } :: tail)
    | none => Except.ok tail

/-- Embeds `_prepare_response`. -/
def prepare_response (aiResult : RankResult) (tutors : List Tutor) :
    Except Unit MatchResponse := do
  let ms ← prepareMatches tutors aiResult.matchesList
  Except.ok { success := true, matchesList := ms }

/-- The failure modes `get_best_matches` can surface to the view: the two
`ValueError` precondition messages, and any other uncaught exception (the view
maps the latter to HTTP 500). -/
inductive MatchError
  | assessmentRequired
  | noQualifiedTutors
  | internalError
deriving Repr, DecidableEq

/-- The ten 0-100 scores of a stored `CognitiveAssessment` that matching reads. -/
structure Assessment where
  confidence_score : ℚ
  anxiety_score : ℚ
  processing_speed_score : ℚ
  working_memory_score : ℚ
  precision_score : ℚ
  error_correction_ability_score : ℚ
  exploratory_nature_score : ℚ
  impulsivity_score : ℚ
  logical_reasoning_score : ℚ
  hypothetical_reasoning_score : ℚ
deriving Repr, DecidableEq

/-- Embeds the cognitive part of `_prepare_learner_profile` (scale 0-100 to
0-10). -/
def prepare_learner_profile (a : Assessment) : Cognitive :=
  { confidence := a.confidence_score / 10
    anxiety := a.anxiety_score / 10
    processing_speed := a.processing_speed_score / 10
    working_memory := a.working_memory_score / 10
    precision := a.precision_score / 10
    error_correction := a.error_correction_ability_score / 10
    exploration := a.exploratory_nature_score / 10
    impulsivity := a.impulsivity_score / 10
    logical_reasoning := a.logical_reasoning_score / 10
    hypothetical_reasoning := a.hypothetical_reasoning_score / 10 }

/-- Everything one call of `get_best_matches` depends on: the learner state,
the qualified-tutor pool, the cache state under the derived key, the ranking
collaborator behaviour, and the random draws of the fallback. -/
structure Env where
  hasAssessment : Bool
  assessment : Assessment
  learnerSubjects : List String
  tutors : List Tutor
  cacheVal : Option RankResult
  outcome : CollabOutcome
  procTime : ℚ
  jitter : ℕ → ℚ

/-- Embeds `TutorMatchingService.get_best_matches`, paired with its cache
write effect: validate assessment, validate the qualified pool, score all
tutors, consult cache + collaborator (any exception there is caught and
answered by `_fallback_matching`), then hydrate via `_prepare_response`, whose
own exceptions are NOT caught inside the service and reach the view. -/
def get_best_matches (env : Env) : Except MatchError MatchResponse × CacheEffect :=
  if env.hasAssessment = false then
    (Except.error MatchError.assessmentRequired, CacheEffect.noStore)
  else if env.tutors.isEmpty then
    (Except.error MatchError.noQualifiedTutors, CacheEffect.noStore)
  else
    let cog := prepare_learner_profile env.assessment
    match calculate_compatibility_scores cog env.learnerSubjects env.tutors with
    | Except.error _ => (Except.error MatchError.internalError, CacheEffect.noStore)
    | Except.ok tutorsData =>
      let res := get_tutor_matches env.cacheVal env.outcome env.procTime
      let ranked :=
        match res.1 with
        | Except.ok r => r
        | Except.error _ => fallback_matching tutorsData env.jitter
      match prepare_response ranked env.tutors with
      | Except.error _ => (Except.error MatchError.internalError, res.2)
      | Except.ok resp => (Except.ok resp, res.2)

/-- The HTTP surface of `TutorMatchingView.get`: status code and error body for
each service outcome. -/
def viewStatusAndError (r : Except MatchError MatchResponse) : ℕ × String :=
  match r with
  | Except.ok _ => (200, "")
  | Except.error MatchError.assessmentRequired => (400, "Cognitive assessment required")
  | Except.error MatchError.noQualifiedTutors => (400, "No qualified tutors available")
  | Except.error MatchError.internalError =>
    (500, "An error occurred while finding tutor matches. Please try again.")

/-! Section 5: cache keys (`generate_cache_key`, `_generate_tutors_hash`,
`_generate_cognitive_hash`) and the cache store.  The truncated md5 digests are
abstracted as function parameters; the string assembly around them is embedded
exactly. -/

/-- Python `sep.join(xs)` on character lists. -/
def joinSep (c : Char) : List (List Char) → List Char
  | [] => []
  | [x] => x
  | x :: y :: xs => x ++ c :: joinSep c (y :: xs)

/-- Split on a separator character, inverse of `joinSep` on separator-free
pieces. -/
def splitSep (c : Char) : List Char → List (List Char)
  | [] => [[]]
  | d :: rest =>
    if d = c then [] :: splitSep c rest
    else
      match splitSep c rest with
      | s :: ss => (d :: s) :: ss
      | [] => [[d]]

/-- Python `sep.join` on strings. -/
def pyJoin (c : Char) (xs : List String) : String := String.mk (joinSep c (xs.map String.data))

/-- Python `sorted` on a string list. -/
def sortedStrings (l : List String) : List String :=
  List.insertionSort (fun a b : String => a ≤ b) l

/-- Embeds `_generate_tutors_hash`:
`md5('|'.join(sorted(tutor ids))).hexdigest()[:8]`, with the truncated digest
abstracted as `h8`. -/
def generate_tutors_hash (h8 : String → String) (tutors : List Tutor) : String :=
  h8 (pyJoin '|' (sortedStrings (tutors.map (fun t => t.id))))

/-- Embeds `_generate_cognitive_hash` on the already-stringified score list:
`md5('|'.join(str(s) for s in scores)).hexdigest()[:8]`. -/
def generate_cognitive_hash (h8 : String → String) (scoreStrs : List String) : String :=
  h8 (pyJoin '|' scoreStrs)

/-- Embeds `AIMatchingService.generate_cache_key`:
`md5(f"match_[learner]_[tutors-hash]_[cognitive-hash]_[hour]").hexdigest()[:16]`
with the truncated digest abstracted as `h16` and the hour bucket string passed
in (the source derives it from the wall clock). -/
def generate_cache_key (h16 : String → String)
    (learnerId tutorsHash cognitiveHash hourComponent : String) : String :=
  h16 (pyJoin '_' ["match", learnerId, tutorsHash, cognitiveHash, hourComponent])

/-- The cache store: key-value pairs, `cache.get` as association lookup. -/
def cacheGet (store : List (String × RankResult)) (k : String) : Option RankResult :=
  store.lookup k

/-- A character does not occur in a string. -/
def charFree (c : Char) (s : String) : Prop := c ∉ s.data

instance (c : Char) (s : String) : Decidable (charFree c s) := by
  unfold charFree
  infer_instance

/-! Section 6: auxiliary definitions used to state the claims, and concrete
inputs used by counterexamples and witnesses. -/

/-- The collaborator outcomes that `get_tutor_matches` itself raises on (the
caller then falls back): unavailable/unconfigured client, a raising or
timed-out API call, output that fails `json.loads`, and JSON that is not an
object.  A JSON object that violates the schema in its entries is NOT in this
set — the source never validates entry shape. -/
def isCollabFailure : CollabOutcome → Bool
  | CollabOutcome.noClient => true
  | CollabOutcome.callFailure => true
  | CollabOutcome.output OutputKind.notJson => true
  | CollabOutcome.output OutputKind.jsonNonDict => true
  | CollabOutcome.output (OutputKind.jsonDict _) => false

/-- Projection of a service result to the list of compatibility scores of its
matches (empty on error). -/
def responseScores (r : Except MatchError MatchResponse) : List ℚ :=
  match r with
  | Except.ok resp => resp.matchesList.map (fun m => m.match_details.compatibility_score)
  | Except.error _ => []

/-- Stated from the spec sentence of C9 (not from the source): lower-case and
strip both subject lists, set-intersect them, return
`overlap_count / learner_subject_count * 10` where the learner count is the
number of distinct normalized learner subjects. -/
def subjectScoreSpec (learner tutor : List String) : ℚ :=
  let ls := (learner.map normalizeSubject).dedup
  let ts := (tutor.map normalizeSubject).dedup
  if ls.length = 0 then 0 else ((ls.filter (fun s => ts.contains s)).length : ℚ) / ls.length * 10

/-- A fingerprint with every trait HIGH. -/
def pedAllHigh : PedagogyProfile :=
  { tcs := Trait.HIGH, tspi := Trait.HIGH, twmls := Trait.HIGH, tpo := Trait.HIGH
    tecp := Trait.HIGH, tet := Trait.HIGH, tics := Trait.HIGH, trd := Trait.HIGH }

/-- An assessment with every stored score 50 (mid band everywhere). -/
def assessMid : Assessment :=
  { confidence_score := 50, anxiety_score := 50, processing_speed_score := 50
    working_memory_score := 50, precision_score := 50, error_correction_ability_score := 50
    exploratory_nature_score := 50, impulsivity_score := 50, logical_reasoning_score := 50
    hypothetical_reasoning_score := 50 }

/-- An assessment at the extremes that maximizes every rule of the enhanced
cognitive scorer against `pedAllHigh`. -/
def assessExtreme : Assessment :=
  { confidence_score := 0, anxiety_score := 100, processing_speed_score := 0
    working_memory_score := 0, precision_score := 0, error_correction_ability_score := 0
    exploratory_nature_score := 0, impulsivity_score := 100, logical_reasoning_score := 100
    hypothetical_reasoning_score := 100 }

/-- A qualified tutor teaching math at price 500. -/
def tutorMath : Tutor :=
  { id := "t1", name := "T One", lesson_price := 500
    subjects := some (TutorSubjectsParse.parsedList ["math"]), pedagogy := pedAllHigh }

/-- The same tutor free of charge (price 0 maximizes the fallback final score). -/
def tutorFree : Tutor :=
  { id := "t1", name := "T One", lesson_price := 0
    subjects := some (TutorSubjectsParse.parsedList ["math"]), pedagogy := pedAllHigh }

/-- A call environment in which the collaborator call raises and the cache is
cold: validation passes, scoring succeeds, ranking must fall back. -/
def envAIDown : Env :=
  { hasAssessment := true, assessment := assessMid, learnerSubjects := ["math"]
    tutors := [tutorMath], cacheVal := none, outcome := CollabOutcome.callFailure
    procTime := 0, jitter := fun _ => 0 }

/-- The same environment but with the extreme assessment, the free tutor and a
failing collaborator: the fallback final score becomes 9.6 * 10 + 10 = 106. -/
def envExtreme : Env :=
  { hasAssessment := true, assessment := assessExtreme, learnerSubjects := ["math"]
    tutors := [tutorFree], cacheVal := none, outcome := CollabOutcome.callFailure
    procTime := 0, jitter := fun _ => 0 }

/-- A parsed collaborator reply whose single match entry has no `tutor_id` key:
valid JSON, schema-invalid per the spec contract. -/
def entryNoTutorId : MatchEntry := { final_score := some 50 }

/-- The environment of `envAIDown` but with the collaborator returning the
schema-invalid `entryNoTutorId` reply. -/
def envSchemaBad : Env :=
  { hasAssessment := true, assessment := assessMid, learnerSubjects := ["math"]
    tutors := [tutorMath], cacheVal := none
    outcome := CollabOutcome.output (OutputKind.jsonDict (some [entryNoTutorId]))
    procTime := 0, jitter := fun _ => 0 }

/-- A well-formed ranked entry, used to build a cached value. -/
def entryT1 : MatchEntry :=
  { tutor_id := some "t1", final_score := some 90, reasoning := some "good fit"
    subject_explanation := some "overlap" }

/-- The value the service caches after a successful collaborator reply
containing `entryT1`. -/
def storedT1 : RankResult :=
  { matchesList := [entryT1], ai_processing_time_ms := 5, cache_hit := false }

/-- Fallback candidate A: price 100, scores (5, 5). -/
def tdA : TutorData :=
  { id := "A", name := "A", price := 100, cognitive_score := 5, subject_score := 5
    price_score := 9.5 }

/-- Fallback candidate B: same scores as A but price 200. -/
def tdB : TutorData :=
  { id := "B", name := "B", price := 200, cognitive_score := 5, subject_score := 5
    price_score := 9 }

/-- Random draws giving candidate A the smaller random factor. -/
def jitBFirst : ℕ → ℚ := fun i => if i = 0 then 0 else 1/2

/-- Random draws giving candidate A the larger random factor. -/
def jitAFirst : ℕ → ℚ := fun i => if i = 0 then 1/2 else 0

/-- The tutors-data row the scorer produces for `tutorFree` against
`assessExtreme`: enhanced cognitive score 9.6 (eight rules at 1.2 each, capped
sum), full subject overlap, price score 10. -/
def tdExtreme : TutorData :=
  { id := "t1", name := "T One", price := 0, cognitive_score := 48/5, subject_score := 10
    price_score := 10 }

/-- The tutors-data row the scorer produces for `tutorMath` against
`assessMid`: seven rules at 0.8 plus exploration 0.4 gives 6.0. -/
def tdMid : TutorData :=
  { id := "t1", name := "T One", price := 500, cognitive_score := 6, subject_score := 10
    price_score := 15/2 }

/-- A second qualified tutor, distinct from `tutorMath` by id. -/
def tutorT2 : Tutor :=
  { id := "t2", name := "T Two", lesson_price := 800
    subjects := some (TutorSubjectsParse.parsedList ["physics"]), pedagogy := pedAllHigh }

/-! Helper lemmas: rounding bounds, rule bounds, and concrete evaluations. -/

theorem pyRound_intCast (n : ℤ) : pyRound (n : ℚ) = n := by
  simp [pyRound]

theorem floor_le_pyRound (x : ℚ) : ⌊x⌋ ≤ pyRound x := by
  unfold pyRound
  dsimp only
  split_ifs <;> omega

theorem pyRound_nonneg {x : ℚ} (h : 0 ≤ x) : 0 ≤ pyRound x :=
  le_trans (Int.floor_nonneg.mpr h) (floor_le_pyRound x)

theorem pyRound_le_of_le {x : ℚ} {n : ℤ} (h : x ≤ n) : pyRound x ≤ n := by
  have hf : ⌊x⌋ ≤ n := by
    have := Int.floor_le_floor (α := ℚ) h
    simpa using this
  have hlt : (1 : ℚ)/2 ≤ x - ⌊x⌋ → ⌊x⌋ + 1 ≤ n := by
    intro hd
    have hx : (⌊x⌋ : ℚ) < x := by linarith
    have : ⌊x⌋ < n := by exact_mod_cast lt_of_lt_of_le hx h
    omega
  unfold pyRound
  dsimp only
  split_ifs with h1 h2 h3
  · exact hf
  · exact hlt (by linarith)
  · exact hf
  · exact hlt (by linarith)

theorem roundTo1_bounds {x : ℚ} (h0 : 0 ≤ x) (h10 : x ≤ 10) :
    0 ≤ roundTo1 x ∧ roundTo1 x ≤ 10 := by
  have hn : 0 ≤ pyRound (10 * x) := pyRound_nonneg (by linarith)
  have hu : pyRound (10 * x) ≤ (100 : ℤ) := pyRound_le_of_le (by push_cast; linarith)
  unfold roundTo1
  constructor
  · positivity
  · rw [div_le_iff₀ (by norm_num)]
    calc (pyRound (10 * x) : ℚ) ≤ (100 : ℤ) := by exact_mod_cast hu
    _ = 10 * 10 := by norm_num

theorem ruleConfidenceAnxiety_bounds (cog : Cognitive) (p : PedagogyProfile) :
    0 ≤ ruleConfidenceAnxiety cog p ∧ ruleConfidenceAnxiety cog p ≤ 6/5 := by
  unfold ruleConfidenceAnxiety
  dsimp only
  split_ifs <;> norm_num

theorem ruleProcessingSpeed_bounds (cog : Cognitive) (p : PedagogyProfile) :
    0 ≤ ruleProcessingSpeed cog p ∧ ruleProcessingSpeed cog p ≤ 6/5 := by
  unfold ruleProcessingSpeed
  dsimp only
  split_ifs <;> norm_num

theorem ruleWorkingMemory_bounds (cog : Cognitive) (p : PedagogyProfile) :
    0 ≤ ruleWorkingMemory cog p ∧ ruleWorkingMemory cog p ≤ 6/5 := by
  unfold ruleWorkingMemory
  dsimp only
  split_ifs <;> norm_num

theorem rulePrecision_bounds (cog : Cognitive) (p : PedagogyProfile) :
    0 ≤ rulePrecision cog p ∧ rulePrecision cog p ≤ 6/5 := by
  unfold rulePrecision
  dsimp only
  split_ifs <;> norm_num

theorem ruleErrorCorrection_bounds (cog : Cognitive) (p : PedagogyProfile) :
    0 ≤ ruleErrorCorrection cog p ∧ ruleErrorCorrection cog p ≤ 6/5 := by
  unfold ruleErrorCorrection
  dsimp only
  split_ifs <;> norm_num

theorem ruleExploration_bounds (cog : Cognitive) (p : PedagogyProfile) :
    0 ≤ ruleExploration cog p ∧ ruleExploration cog p ≤ 6/5 := by
  unfold ruleExploration
  dsimp only
  split_ifs <;> norm_num

theorem ruleImpulsivity_bounds (cog : Cognitive) (p : PedagogyProfile) :
    0 ≤ ruleImpulsivity cog p ∧ ruleImpulsivity cog p ≤ 6/5 := by
  unfold ruleImpulsivity
  dsimp only
  split_ifs <;> norm_num

theorem ruleReasoning_bounds (cog : Cognitive) (p : PedagogyProfile) :
    0 ≤ ruleReasoning cog p ∧ ruleReasoning cog p ≤ 6/5 := by
  unfold ruleReasoning
  dsimp only
  split_ifs <;> norm_num

theorem calculate_enhanced_cognitive_score_bounds (cog : Cognitive) (p : PedagogyProfile) :
    0 ≤ calculate_enhanced_cognitive_score cog p ∧
      calculate_enhanced_cognitive_score cog p ≤ 10 := by
  obtain ⟨a1, b1⟩ := ruleConfidenceAnxiety_bounds cog p
  obtain ⟨a2, b2⟩ := ruleProcessingSpeed_bounds cog p
  obtain ⟨a3, b3⟩ := ruleWorkingMemory_bounds cog p
  obtain ⟨a4, b4⟩ := rulePrecision_bounds cog p
  obtain ⟨a5, b5⟩ := ruleErrorCorrection_bounds cog p
  obtain ⟨a6, b6⟩ := ruleExploration_bounds cog p
  obtain ⟨a7, b7⟩ := ruleImpulsivity_bounds cog p
  obtain ⟨a8, b8⟩ := ruleReasoning_bounds cog p
  unfold calculate_enhanced_cognitive_score
  exact roundTo1_bounds (le_min (by linarith) (by norm_num)) (min_le_right _ _)

theorem subjectOverlapScore_bounds (ls ts : List String) :
    0 ≤ subjectOverlapScore ls ts ∧ subjectOverlapScore ls ts ≤ 10 := by
  unfold subjectOverlapScore
  dsimp only
  split_ifs with h
  · have hle := List.length_filter_le
      (fun s => ((ts.map normalizeSubject).dedup).contains s) ((ls.map normalizeSubject).dedup)
    have hpos : (0 : ℚ) < ((ls.map normalizeSubject).dedup).length := by exact_mod_cast h
    have hdiv : (((ls.map normalizeSubject).dedup.filter
          (fun s => ((ts.map normalizeSubject).dedup).contains s)).length : ℚ) /
        ((ls.map normalizeSubject).dedup).length ≤ 1 :=
      (div_le_one hpos).mpr (by exact_mod_cast hle)
    constructor
    · positivity
    · calc _ ≤ (1 : ℚ) * 10 := mul_le_mul_of_nonneg_right hdiv (by norm_num)
      _ = 10 := by norm_num
  · norm_num

theorem calculate_subject_score_ok_bounds {ls : List String}
    {tf : Option TutorSubjectsParse} {q : ℚ}
    (h : calculate_subject_score ls tf = Except.ok q) : 0 ≤ q ∧ q ≤ 10 := by
  unfold calculate_subject_score at h
  split_ifs at h with h1
  · cases h
    norm_num
  · rcases tf with _ | pf
    · cases h
      norm_num
    · rcases pf with _ | xs | s | t
      · cases h
        norm_num
      · dsimp only at h
        split_ifs at h
        · cases h
          norm_num
        · cases h
          exact subjectOverlapScore_bounds ls xs
      · dsimp only at h
        split_ifs at h
        · cases h
          norm_num
        · cases h
          exact subjectOverlapScore_bounds ls _
      · dsimp only at h
        split_ifs at h <;> cases h <;> norm_num

theorem price_score_bounds {price : ℚ} (h : 0 ≤ price) :
    0 ≤ price_score price ∧ price_score price ≤ 10 := by
  unfold price_score
  constructor
  · exact le_max_left 0 _
  · have : 0 ≤ price / 2000 * 10 := by positivity
    exact max_le (by norm_num) (by linarith)

theorem attachJitter_mem {j : ℕ → ℚ} {t : TutorData} {r : ℚ} :
    ∀ {i : ℕ} {td : List TutorData}, (t, r) ∈ attachJitter j i td → t ∈ td := by
  intro i td
  induction td generalizing i with
  | nil => simp [attachJitter]
  | cons x xs ih =>
    intro h
    simp only [attachJitter, List.mem_cons, Prod.mk.injEq] at h
    rcases h with ⟨ht, _⟩ | h
    · exact List.mem_cons.mpr (Or.inl ht)
    · exact List.mem_cons_of_mem x (ih h)

theorem fallback_matching_length_le (td : List TutorData) (j : ℕ → ℚ) :
    (fallback_matching td j).matchesList.length ≤ 3 := by
  simp only [fallback_matching, List.length_map]
  exact List.length_take_le 3 _

theorem fallback_matching_entries {td : List TutorData} {j : ℕ → ℚ} {m : MatchEntry}
    (h : m ∈ (fallback_matching td j).matchesList) :
    ∃ t ∈ td, m.tutor_id = some t.id ∧
      m.final_score = some (t.cognitive_score * 10 + t.subject_score) := by
  simp only [fallback_matching, List.mem_map] at h
  obtain ⟨tr, htr, rfl⟩ := h
  have hmem : tr ∈ List.insertionSort fbLE (attachJitter j 0 td) := List.mem_of_mem_take htr
  have hmem2 : tr ∈ attachJitter j 0 td :=
    (List.perm_insertionSort fbLE (attachJitter j 0 td)).mem_iff.mp hmem
  exact ⟨tr.1, attachJitter_mem hmem2, rfl, rfl⟩

theorem prepareMatches_ok (tutors : List Tutor) :
    ∀ ms : List MatchEntry, (∀ m ∈ ms, m.tutor_id.isSome = true) →
      ∃ l, prepareMatches tutors ms = Except.ok l ∧ l.length ≤ ms.length := by
  intro ms
  induction ms with
  | nil => exact fun _ => ⟨[], rfl, Nat.le_refl 0⟩
  | cons m rest ih =>
    intro h
    obtain ⟨tid, htid⟩ := Option.isSome_iff_exists.mp (h m (List.mem_cons_self m rest))
    obtain ⟨l, hl, hlen⟩ := ih (fun x hx => h x (List.mem_cons_of_mem m hx))
    rcases hf : tutors.find? (fun t => t.id == tid) with _ | t
    · refine ⟨l, ?_, Nat.le_succ_of_le hlen⟩
      simp [prepareMatches, req, htid, hl, hf, Except.bind, bind]
    · refine ⟨{ tutor := t
                match_details :=
                  { compatibility_score := m.final_score.getD 0
                    reasoning := m.reasoning.getD ""
                    subject_explanation := m.subject_explanation.getD "" } } :: l,
        ?_, Nat.succ_le_succ hlen⟩
      simp [prepareMatches, req, htid, hl, hf, Except.bind, bind]

theorem enhancedExtreme_eq :
    calculate_enhanced_cognitive_score (prepare_learner_profile assessExtreme) pedAllHigh =
      48/5 := by
  norm_num [calculate_enhanced_cognitive_score, ruleConfidenceAnxiety, ruleProcessingSpeed,
    ruleWorkingMemory, rulePrecision, ruleErrorCorrection, ruleExploration, ruleImpulsivity,
    ruleReasoning, prepare_learner_profile, assessExtreme, pedAllHigh, roundTo1]
  rw [show (96 : ℚ) = ((96 : ℤ) : ℚ) by norm_num, pyRound_intCast]
  norm_num

theorem enhancedMid_eq :
    calculate_enhanced_cognitive_score (prepare_learner_profile assessMid) pedAllHigh = 6 := by
  norm_num [calculate_enhanced_cognitive_score, ruleConfidenceAnxiety, ruleProcessingSpeed,
    ruleWorkingMemory, rulePrecision, ruleErrorCorrection, ruleExploration, ruleImpulsivity,
    ruleReasoning, prepare_learner_profile, assessMid, pedAllHigh, roundTo1]
  simp only [show (Trait.HIGH = Trait.LOW) = False from by simp, if_false]
  norm_num
  rw [show (60 : ℚ) = ((60 : ℤ) : ℚ) by norm_num, pyRound_intCast]
  norm_num

theorem subjectMath_eq :
    calculate_subject_score ["math"] (some (TutorSubjectsParse.parsedList ["math"])) =
      Except.ok 10 := by
  norm_num [calculate_subject_score, subjectOverlapScore, normalizeSubject, stripChars]

theorem compatExtreme_eq :
    calculate_compatibility_scores (prepare_learner_profile assessExtreme) ["math"]
      [tutorFree] = Except.ok [tdExtreme] := by
  norm_num [calculate_compatibility_scores, computeTutorData, List.mapM, List.mapM.loop,
    Except.bind, Except.pure, Except.map, bind, pure, tutorFree, enhancedExtreme_eq,
    subjectMath_eq, price_score, tdExtreme]

theorem compatMid_eq :
    calculate_compatibility_scores (prepare_learner_profile assessMid) ["math"]
      [tutorMath] = Except.ok [tdMid] := by
  norm_num [calculate_compatibility_scores, computeTutorData, List.mapM, List.mapM.loop,
    Except.bind, Except.pure, Except.map, bind, pure, tutorMath, enhancedMid_eq,
    subjectMath_eq, price_score, tdMid]

theorem subjectOverlap_example :
    subjectOverlapScore ["Maths", "Physics"] ["Mathematics", "Chemistry"] = 0 := by
  have h : (((["Maths", "Physics"].map normalizeSubject).dedup).filter
      (fun s => ((["Mathematics", "Chemistry"].map normalizeSubject).dedup).contains s)).length
      = 0 := by decide
  have h2 : ((["Maths", "Physics"].map normalizeSubject).dedup).length = 2 := by decide
  simp only [subjectOverlapScore, h, h2]
  norm_num

theorem subjectStr_example :
    calculate_subject_score ["a"] (some (TutorSubjectsParse.parsedStr "math")) =
      Except.ok 10 := by
  have h : ((((["a"].map normalizeSubject).dedup)).filter
      (fun s => ((("math".data.map (fun c => String.mk [c])).map normalizeSubject).dedup).contains
        s)).length = 1 := by decide
  have h2 : ((["a"].map normalizeSubject).dedup).length = 1 := by decide
  simp only [calculate_subject_score, subjectOverlapScore]
  norm_num [h, h2]
  decide

theorem splitSep_sepFree {c : Char} : ∀ {x : List Char}, c ∉ x → splitSep c x = [x] := by
  intro x
  induction x with
  | nil => intro _; rfl
  | cons d rest ih =>
    intro h
    have hd : ¬ d = c := fun hdc => h (hdc ▸ List.mem_cons_self d rest)
    have hr : c ∉ rest := fun hc => h (List.mem_cons_of_mem d hc)
    simp only [splitSep, if_neg hd, ih hr]

theorem splitSep_ne_nil (c : Char) : ∀ (l : List Char), splitSep c l ≠ [] := by
  intro l
  cases l with
  | nil => simp [splitSep]
  | cons d rest =>
    simp only [splitSep]
    split_ifs
    · simp
    · rcases h : splitSep c rest with _ | ⟨s, ss⟩ <;> simp

theorem splitSep_sepCons {c : Char} {r : List Char} :
    ∀ {x : List Char}, c ∉ x → splitSep c (x ++ c :: r) = x :: splitSep c r := by
  intro x
  induction x with
  | nil => intro _; simp [splitSep]
  | cons d rest ih =>
    intro h
    have hd : ¬ d = c := fun hdc => h (hdc ▸ List.mem_cons_self d rest)
    have hr : c ∉ rest := fun hc => h (List.mem_cons_of_mem d hc)
    simp only [List.cons_append, splitSep, if_neg hd, List.append_eq]
    rw [ih hr]

theorem splitSep_joinSep {c : Char} :
    ∀ {xs : List (List Char)}, xs ≠ [] → (∀ x ∈ xs, c ∉ x) →
      splitSep c (joinSep c xs) = xs
  | [], h, _ => absurd rfl h
  | [x], _, hf => by
    simp only [joinSep]
    exact splitSep_sepFree (hf x (List.mem_singleton_self x))
  | x :: y :: t, _, hf => by
    have hx : c ∉ x := hf x (List.mem_cons_self _ _)
    simp only [joinSep, splitSep_sepCons hx]
    rw [splitSep_joinSep (by simp) (fun z hz => hf z (List.mem_cons_of_mem x hz))]

theorem stringData_inj : Function.Injective String.data := by
  intro s t h
  cases s
  cases t
  exact congrArg String.mk h

theorem pyJoin_inj {c : Char} {xs ys : List String} (hx : xs ≠ []) (hy : ys ≠ [])
    (hfx : ∀ s ∈ xs, charFree c s) (hfy : ∀ s ∈ ys, charFree c s)
    (h : pyJoin c xs = pyJoin c ys) : xs = ys := by
  unfold pyJoin at h
  have hd : joinSep c (xs.map String.data) = joinSep c (ys.map String.data) :=
    congrArg String.data h
  have hxs : splitSep c (joinSep c (xs.map String.data)) = xs.map String.data :=
    splitSep_joinSep (by simpa using hx)
      (by
        intro z hz
        obtain ⟨s, hs, rfl⟩ := List.mem_map.mp hz
        exact hfx s hs)
  have hys : splitSep c (joinSep c (ys.map String.data)) = ys.map String.data :=
    splitSep_joinSep (by simpa using hy)
      (by
        intro z hz
        obtain ⟨s, hs, rfl⟩ := List.mem_map.mp hz
        exact hfy s hs)
  have : xs.map String.data = ys.map String.data := by rw [← hxs, ← hys, hd]
  exact List.map_injective_iff.mpr stringData_inj this

theorem sortedStrings_eq_of_perm {l1 l2 : List String} (h : l1.Perm l2) :
    sortedStrings l1 = sortedStrings l2 := by
  haveI : IsAntisymm String (fun a b : String => a ≤ b) := ⟨fun a b h1 h2 => le_antisymm h1 h2⟩
  have hp : (sortedStrings l1).Perm (sortedStrings l2) :=
    (List.perm_insertionSort _ l1).trans (h.trans (List.perm_insertionSort _ l2).symm)
  have hs1 : List.Sorted (fun a b : String => a ≤ b) (sortedStrings l1) :=
    List.sorted_insertionSort _ l1
  have hs2 : List.Sorted (fun a b : String => a ≤ b) (sortedStrings l2) :=
    List.sorted_insertionSort _ l2
  exact List.eq_of_perm_of_sorted hp hs1 hs2

theorem perm_of_sortedStrings_eq {l1 l2 : List String} (h : sortedStrings l1 = sortedStrings l2) :
    l1.Perm l2 := by
  have h1 := List.perm_insertionSort (fun a b : String => a ≤ b) l1
  have h2 := List.perm_insertionSort (fun a b : String => a ≤ b) l2
  unfold sortedStrings at h
  exact h1.symm.trans (h ▸ h2)

theorem subjectOverlapScore_eq_spec (ls xs : List String) :
    subjectOverlapScore ls xs = subjectScoreSpec ls xs := by
  unfold subjectOverlapScore subjectScoreSpec
  dsimp only
  rcases Nat.eq_zero_or_pos ((ls.map normalizeSubject).dedup).length with h | h
  · simp [h]
  · rw [if_pos h, if_neg (Nat.pos_iff_ne_zero.mp h)]

theorem subjectScoreSpec_empty_learner (xs : List String) : subjectScoreSpec [] xs = 0 := by
  simp [subjectScoreSpec]

theorem subjectScoreSpec_empty_tutor (ls : List String) : subjectScoreSpec ls [] = 0 := by
  unfold subjectScoreSpec
  dsimp only
  split_ifs with h
  · rfl
  · simp [List.dedup_nil]

/-! The claims. -/

/-- C2 (counterexample): the cached value written by the successful
collaborator path carries `cache_hit = false`, and a later cache hit returns
that stored value unchanged — so the hit is NOT tagged `cache_hit = true` as
the claim states. -/
theorem c2_cache_hit_flag_is_false :
    get_tutor_matches none (CollabOutcome.output (OutputKind.jsonDict (some [entryT1]))) 5 =
      (Except.ok storedT1, CacheEffect.store storedT1 3600) ∧
    get_tutor_matches (some storedT1) CollabOutcome.callFailure 0 =
      (Except.ok storedT1, CacheEffect.noStore) ∧
    storedT1.cache_hit = false ∧ storedT1.cache_hit ≠ true :=
  ⟨rfl, rfl, rfl, by decide⟩

/-- C2 (amended): on a cache hit `get_tutor_matches` returns the stored value
unchanged, writes nothing, and never consults the ranking collaborator (the
result is independent of the collaborator outcome); the `cache_hit` tag of the
returned value is whatever was stored — `false` for every value this service
itself stores — not `true`. -/
theorem c2_cache_hit_returns_stored :
    ∀ (v : RankResult) (o o2 : CollabOutcome) (p p2 : ℚ),
      get_tutor_matches (some v) o p = (Except.ok v, CacheEffect.noStore) ∧
      get_tutor_matches (some v) o p = get_tutor_matches (some v) o2 p2 := by
  intro v o o2 p p2
  exact ⟨rfl, rfl⟩

/-- C3 (counterexample): with a cold cache and a raising collaborator call the
service answers successfully from the deterministic fallback, yet writes
nothing to the cache — the fallback result is NOT persisted as the claim
states. -/
theorem c3_fallback_result_not_persisted :
    get_tutor_matches envAIDown.cacheVal envAIDown.outcome envAIDown.procTime =
      (Except.error (), CacheEffect.noStore) ∧
    (get_best_matches envAIDown).1.isOk = true ∧
    (get_best_matches envAIDown).2 = CacheEffect.noStore := by
  refine ⟨rfl, rfl, rfl⟩

/-- C3 (amended): the fallback result is tagged `cache_hit = false` but is
never written to the cache: every collaborator-failure path of
`get_tutor_matches` (and hence of `get_best_matches`) performs no cache store;
only the successful collaborator path stores its result, with the fixed TTL of
3600 seconds and `cache_hit = false`. -/
theorem c3_store_only_on_collaborator_success :
    ∀ (e : Env) (td : List TutorData) (j : ℕ → ℚ) (o : CollabOutcome)
      (ms : Option (List MatchEntry)) (p : ℚ),
      (fallback_matching td j).cache_hit = false ∧
      (isCollabFailure o = true →
        get_tutor_matches none o p = (Except.error (), CacheEffect.noStore)) ∧
      (isCollabFailure o = true →
        (get_best_matches { e with cacheVal := none, outcome := o }).2 = CacheEffect.noStore) ∧
      get_tutor_matches none (CollabOutcome.output (OutputKind.jsonDict ms)) p =
        (Except.ok { matchesList := ms.getD [], ai_processing_time_ms := p, cache_hit := false },
          CacheEffect.store
            { matchesList := ms.getD [], ai_processing_time_ms := p, cache_hit := false } 3600) := by
  intro e td j o ms p
  have hfail : isCollabFailure o = true →
      get_tutor_matches none o p = (Except.error (), CacheEffect.noStore) := by
    intro ho
    cases o with
    | noClient => rfl
    | callFailure => rfl
    | output k =>
      cases k with
      | notJson => rfl
      | jsonNonDict => rfl
      | jsonDict ms2 => simp [isCollabFailure] at ho
  refine ⟨rfl, hfail, ?_, rfl⟩
  intro ho
  have hfailE : isCollabFailure o = true →
      get_tutor_matches none o e.procTime = (Except.error (), CacheEffect.noStore) := by
    intro ho2
    cases o with
    | noClient => rfl
    | callFailure => rfl
    | output k =>
      cases k with
      | notJson => rfl
      | jsonNonDict => rfl
      | jsonDict ms2 => simp [isCollabFailure] at ho2
  rcases e with ⟨hA, asm, lsub, tus, cv, oc, pt, ji⟩
  simp only [get_best_matches]
  cases hA
  · rfl
  · cases htus : tus.isEmpty
    · simp only [Bool.false_eq_true, if_false, if_neg]
      rcases hcc : calculate_compatibility_scores (prepare_learner_profile asm) lsub tus with
        _ | tdata
      · simp [htus, hcc]
      · simp only [htus, hcc]
        rw [hfailE ho]
        dsimp only
        rcases hpr : prepare_response (fallback_matching tdata ji) tus with _ | resp <;>
          simp [hpr]
    · simp [htus]

/-- C4 (counterexample): two fallback candidates with equal cognitive and
subject scores but different prices — a pair that differs in one of the three
claimed sort components — change relative order depending on the random draws,
because the source sorts the random factor BEFORE price. -/
theorem c4_jitter_reorders_price_distinct_pair :
    tdA.cognitive_score = tdB.cognitive_score ∧ tdA.subject_score = tdB.subject_score ∧
    tdA.price ≠ tdB.price ∧
    ((fallback_matching [tdA, tdB] jitBFirst).matchesList.map (fun m => m.tutor_id)) =
      [some "B", some "A"] ∧
    ((fallback_matching [tdA, tdB] jitAFirst).matchesList.map (fun m => m.tutor_id)) =
      [some "A", some "B"] := by
  refine ⟨rfl, rfl, by norm_num [tdA, tdB], ?_, ?_⟩ <;>
    norm_num [fallback_matching, attachJitter, jitBFirst, jitAFirst, List.insertionSort,
      List.orderedInsert, fbLE, lexLT4, fbKey, tdA, tdB]

/-- C4 (amended): the fallback sort key is
`(-cognitive_score, -subject_score, -random_factor, price)`: for every pair of
candidates that differ in cognitive score or subject score the pairwise key
order is the same for every outcome of the random jitter, but between
candidates equal in both scores the jitter decides the order BEFORE price, so
a price difference does not make the order jitter-independent. -/
theorem c4_order_jitter_independent_on_score_difference :
    ∀ (t1 t2 : TutorData) (r1 r2 s1 s2 : ℚ),
      t1.cognitive_score ≠ t2.cognitive_score ∨ t1.subject_score ≠ t2.subject_score →
      lexLT4 (fbKey t1 r1) (fbKey t2 r2) = lexLT4 (fbKey t1 s1) (fbKey t2 s2) := by
  intro t1 t2 r1 r2 s1 s2 h
  rcases lt_trichotomy t1.cognitive_score t2.cognitive_score with hc | hc | hc
  · simp [lexLT4, fbKey, neg_lt_neg_iff, hc, asymm hc]
  · rcases lt_trichotomy t1.subject_score t2.subject_score with hs | hs | hs
    · simp [lexLT4, fbKey, neg_lt_neg_iff, hc, lt_irrefl, hs, asymm hs]
    · rcases h with h | h
      · exact absurd hc h
      · exact absurd hs h
    · simp [lexLT4, fbKey, neg_lt_neg_iff, hc, lt_irrefl, hs, asymm hs]
  · simp [lexLT4, fbKey, neg_lt_neg_iff, hc, asymm hc]

/-- C4 (witness): the jitter-independence applies to the concrete pair
`tdExtreme`, `tdMid`, whose cognitive scores differ. -/
theorem c4_order_jitter_independent_witness :
    lexLT4 (fbKey tdExtreme 0) (fbKey tdMid 0) = lexLT4 (fbKey tdExtreme 1) (fbKey tdMid 1) :=
  c4_order_jitter_independent_on_score_difference tdExtreme tdMid 0 0 1 1
    (Or.inl (by norm_num [tdExtreme, tdMid]))

/-- C5: every payload that passes `CognitiveAssessmentInputSerializer` (its
keys are `question1_conservation` … `question5_hypothetical`) makes
`compute_scores` raise `KeyError` at its very first access `payload["s2"]` —
the behavioral scoring path fails on every well-formed input, contradicting
the spec contract that scoring is total for schema-valid submissions (the view
additionally imports the nonexistent `get_assessment_response`). -/
theorem c5_wellformed_payload_raises_keyerror :
    ∀ p : ValidatedPayload, compute_scores p.toDict = Except.error () := by
  intro p
  rfl

/-- C8: with no stored cognitive assessment `get_best_matches` fails with the
`assessment required` error, with an empty qualified-tutor pool it fails with
the `no qualified tutors` error, both before any compatibility computation
(the result is the same for every assessment, subject list, cache state,
collaborator outcome and jitter), and the two errors are distinct values that
the view surfaces as distinguishable HTTP 400 responses. -/
theorem c8_precondition_errors :
    ∀ e : Env,
      get_best_matches { e with hasAssessment := false } =
        (Except.error MatchError.assessmentRequired, CacheEffect.noStore) ∧
      get_best_matches { e with hasAssessment := true, tutors := [] } =
        (Except.error MatchError.noQualifiedTutors, CacheEffect.noStore) ∧
      MatchError.assessmentRequired ≠ MatchError.noQualifiedTutors ∧
      (viewStatusAndError (Except.error MatchError.assessmentRequired)).1 = 400 ∧
      (viewStatusAndError (Except.error MatchError.noQualifiedTutors)).1 = 400 ∧
      viewStatusAndError (Except.error MatchError.assessmentRequired) ≠
        viewStatusAndError (Except.error MatchError.noQualifiedTutors) := by
  intro e
  refine ⟨rfl, rfl, by decide, rfl, rfl, by decide⟩

/-- C9 (counterexample): malformed tutor subject input is not always tolerated
with a 0 score: a JSON string (not a list) is iterated character by character
and can score 10, and a truthy non-iterable JSON value raises a `TypeError`
that is not caught. -/
theorem c9_malformed_tutor_subjects_not_tolerated :
    calculate_subject_score ["a"] (some (TutorSubjectsParse.parsedStr "math")) = Except.ok 10 ∧
    (10 : ℚ) ≠ 0 ∧
    calculate_subject_score ["math"] (some (TutorSubjectsParse.parsedOther true)) =
      Except.error () := by
  refine ⟨subjectStr_example, by norm_num, rfl⟩

/-- C9 (amended): absent input, input whose JSON parse raises, and empty
learner lists all score 0; for tutor input that parses to a list the score is
exactly the spec formula (lower-case, strip, set-intersect,
`overlap / distinct-learner-count * 10`); the spec example with no literal
overlap scores 0.  Input parsing to a non-list JSON value is NOT tolerated
(see the counterexample). -/
theorem c9_subject_score_behavior :
    (∀ ls : List String, calculate_subject_score ls none = Except.ok 0) ∧
    (∀ ls : List String,
      calculate_subject_score ls (some TutorSubjectsParse.parseFail) = Except.ok 0) ∧
    (∀ tf : Option TutorSubjectsParse, calculate_subject_score [] tf = Except.ok 0) ∧
    (∀ ls xs : List String,
      calculate_subject_score ls (some (TutorSubjectsParse.parsedList xs)) =
        Except.ok (subjectScoreSpec ls xs)) ∧
    calculate_subject_score ["Maths", "Physics"]
      (some (TutorSubjectsParse.parsedList ["Mathematics", "Chemistry"])) = Except.ok 0 := by
  refine ⟨?_, ?_, ?_, ?_, ?_⟩
  · intro ls
    unfold calculate_subject_score
    split_ifs <;> rfl
  · intro ls
    unfold calculate_subject_score
    split_ifs <;> rfl
  · intro tf
    rfl
  · intro ls xs
    unfold calculate_subject_score
    dsimp only
    split_ifs with h1 h2
    · rw [List.isEmpty_iff] at h1
      subst h1
      rw [subjectScoreSpec_empty_learner]
    · rw [List.isEmpty_iff] at h2
      subst h2
      rw [subjectScoreSpec_empty_tutor]
    · rw [subjectOverlapScore_eq_spec]
  · simp [calculate_subject_score, subjectOverlap_example]

/-- C10: the five performance bands are a contiguous, exhaustive partition of
the clamped integer score domain 0 … 100: the band loop finds a band for every
such score (the `return 1` fallback is unreachable), exactly one band range
contains each score, and `get_performance_band` returns exactly the 1-based
index of that band. -/
theorem c10_band_partition :
    ∀ s : Fin 101,
      get_performance_bandOpt (s : ℤ) = some (get_performance_band (s : ℤ)) ∧
      ((ScoringConstants.PERFORMANCE_BANDS.filter
          (fun b => decide (b.1 ≤ (s : ℤ)) && decide ((s : ℤ) ≤ b.2))).length = 1) ∧
      (∀ j : Fin 5,
        (let b := ScoringConstants.PERFORMANCE_BANDS.getD (j : ℕ) (0, 0)
         b.1 ≤ (s : ℤ) ∧ (s : ℤ) ≤ b.2) ↔ get_performance_band (s : ℤ) = (j : ℕ) + 1) := by
  decide

/-- C3 (witness): the store-only-on-success theorem at the concrete failing
call of `envAIDown`. -/
theorem c3_store_only_on_collaborator_success_witness :
    (fallback_matching [tdMid] (fun _ => 0)).cache_hit = false ∧
    get_tutor_matches none CollabOutcome.callFailure 0 =
      (Except.error (), CacheEffect.noStore) ∧
    (get_best_matches envAIDown).2 = CacheEffect.noStore := by
  obtain ⟨h1, h2, h3, _⟩ := c3_store_only_on_collaborator_success envAIDown [tdMid] (fun _ => 0)
    CollabOutcome.callFailure none 0
  exact ⟨h1, h2 rfl, h3 rfl⟩

/-- C1 (counterexample): a collaborator reply that parses as JSON but violates
the schema — its single match entry lacks `tutor_id` — is not treated as a
ranking failure: no fallback happens, the `KeyError` from response assembly
escapes the service, and the caller receives an HTTP 500 error instead of a
success response. -/
theorem c1_schema_invalid_reply_surfaces_error :
    (get_best_matches envSchemaBad).1 = Except.error MatchError.internalError ∧
    viewStatusAndError (get_best_matches envSchemaBad).1 =
      (500, "An error occurred while finding tutor matches. Please try again.") := by
  constructor
  · rfl
  · rfl

/-- C1 (amended): for the failure outcomes the service itself detects —
collaborator unavailable or unconfigured, raising or timed-out call, non-JSON
output, JSON that is not an object — `get_best_matches` (with a cold cache,
validation passed, and local compatibility scoring succeeding) answers from
the deterministic fallback with a success response of at most 3 matches and no
cache write; but schema-invalid JSON replies are not detected (see the
counterexample). -/
theorem c1_collaborator_failure_falls_back :
    ∀ (e : Env) (t : Tutor) (ts : List Tutor) (o : CollabOutcome) (td : List TutorData),
      isCollabFailure o = true →
      calculate_compatibility_scores (prepare_learner_profile e.assessment) e.learnerSubjects
        (t :: ts) = Except.ok td →
      ∃ resp : MatchResponse,
        get_best_matches
            { e with hasAssessment := true, tutors := t :: ts, cacheVal := none, outcome := o } =
          (Except.ok resp, CacheEffect.noStore) ∧
        resp.success = true ∧ resp.matchesList.length ≤ 3 := by
  intro e t ts o td ho hc
  have hfail : get_tutor_matches none o e.procTime = (Except.error (), CacheEffect.noStore) := by
    cases o with
    | noClient => rfl
    | callFailure => rfl
    | output k =>
      cases k with
      | notJson => rfl
      | jsonNonDict => rfl
      | jsonDict ms2 => simp [isCollabFailure] at ho
  have hids : ∀ m ∈ (fallback_matching td e.jitter).matchesList, m.tutor_id.isSome = true := by
    intro m hm
    obtain ⟨t2, _, hid, _⟩ := fallback_matching_entries hm
    rw [hid]
    rfl
  obtain ⟨l, hl, hlen⟩ := prepareMatches_ok (t :: ts) _ hids
  refine ⟨{ success := true, matchesList := l }, ?_, rfl,
    le_trans hlen (fallback_matching_length_le td e.jitter)⟩
  have hpr : prepare_response (fallback_matching td e.jitter) (t :: ts) =
      Except.ok { success := true, matchesList := l } := by
    simp [prepare_response, hl, Except.bind, bind]
  simp only [get_best_matches]
  norm_num
  rw [hc]
  rw [hfail]
  dsimp only
  rw [hpr]

/-- C1 (witness): the amended theorem at the concrete environment `envAIDown`. -/
theorem c1_collaborator_failure_falls_back_witness :
    isCollabFailure CollabOutcome.callFailure = true ∧
    ∃ resp : MatchResponse,
      get_best_matches envAIDown = (Except.ok resp, CacheEffect.noStore) ∧
      resp.success = true ∧ resp.matchesList.length ≤ 3 :=
  ⟨rfl, c1_collaborator_failure_falls_back envAIDown tutorMath [] CollabOutcome.callFailure
    [tdMid] rfl compatMid_eq⟩

/-- C6 (counterexample): against the extreme profile and a free tutor with a
fully overlapping subject, the fallback synthesizes
`final_score = 9.6 * 10 + 10 = 106`, which the service returns as the match
compatibility score — outside the claimed [0, 100] domain. -/
theorem c6_fallback_final_score_exceeds_100 :
    responseScores (get_best_matches envExtreme).1 = [106] ∧ ¬ ((106 : ℚ) ≤ 100) ∧
    (106 : ℚ) ≤ 110 := by
  refine ⟨?_, by norm_num, by norm_num⟩
  simp only [responseScores, get_best_matches, envExtreme, get_tutor_matches]
  rw [compatExtreme_eq]
  norm_num [fallback_matching, attachJitter, List.insertionSort, List.orderedInsert, fbLE,
    lexLT4, fbKey, tdExtreme, prepare_response, prepareMatches, req, Except.bind, bind,
    tutorFree, fallbackReasoning]

/-- C6 (amended): the enhanced cognitive score always lies in [0, 10]; every
subject score the scorer returns lies in [0, 10]; the price score lies in
[0, 10] for every non-negative price; but the fallback `final_score`
(`cognitive * 10 + subject`) is only bounded by [0, 110] when the per-tutor
scores are in range — it can exceed 100 (see the counterexample). -/
theorem c6_score_ranges :
    (∀ (cog : Cognitive) (p : PedagogyProfile),
      0 ≤ calculate_enhanced_cognitive_score cog p ∧
        calculate_enhanced_cognitive_score cog p ≤ 10) ∧
    (∀ (ls : List String) (tf : Option TutorSubjectsParse) (q : ℚ),
      calculate_subject_score ls tf = Except.ok q → 0 ≤ q ∧ q ≤ 10) ∧
    (∀ price : ℚ, 0 ≤ price → 0 ≤ price_score price ∧ price_score price ≤ 10) ∧
    (∀ (td : List TutorData) (j : ℕ → ℚ) (m : MatchEntry),
      (∀ t ∈ td, 0 ≤ t.cognitive_score ∧ t.cognitive_score ≤ 10 ∧
        0 ≤ t.subject_score ∧ t.subject_score ≤ 10) →
      m ∈ (fallback_matching td j).matchesList →
      ∃ q, m.final_score = some q ∧ 0 ≤ q ∧ q ≤ 110) := by
  refine ⟨calculate_enhanced_cognitive_score_bounds,
    fun ls tf q h => calculate_subject_score_ok_bounds h,
    fun price hp => price_score_bounds hp, ?_⟩
  intro td j m hb hm
  obtain ⟨t, ht, _, hfs⟩ := fallback_matching_entries hm
  obtain ⟨hc0, hc10, hs0, hs10⟩ := hb t ht
  exact ⟨_, hfs, by linarith, by linarith⟩

/-- C6 (witness): the range theorem at concrete inputs — the mid profile, the
full-overlap subject lists, price 500, and the fallback over `[tdMid]`. -/
theorem c6_score_ranges_witness :
    (0 ≤ calculate_enhanced_cognitive_score (prepare_learner_profile assessMid) pedAllHigh ∧
      calculate_enhanced_cognitive_score (prepare_learner_profile assessMid) pedAllHigh ≤ 10) ∧
    (0 ≤ (10 : ℚ) ∧ (10 : ℚ) ≤ 10) ∧
    (0 ≤ price_score 500 ∧ price_score 500 ≤ 10) ∧
    (∃ m ∈ (fallback_matching [tdMid] (fun _ => 0)).matchesList,
      ∃ q, m.final_score = some q ∧ 0 ≤ q ∧ q ≤ 110) := by
  have hlist : (fallback_matching [tdMid] (fun _ => 0)).matchesList =
      [{ tutor_id := some tdMid.id,
         final_score := some (tdMid.cognitive_score * 10 + tdMid.subject_score),
         reasoning := some (fallbackReasoning tdMid),
         subject_explanation := some "Basic subject overlap analysis" }] := rfl
  have hmem : ({ tutor_id := some tdMid.id,
                 final_score := some (tdMid.cognitive_score * 10 + tdMid.subject_score),
                 reasoning := some (fallbackReasoning tdMid),
                 subject_explanation := some "Basic subject overlap analysis" } :
      MatchEntry) ∈ (fallback_matching [tdMid] (fun _ => 0)).matchesList := by
    rw [hlist]
    exact List.mem_singleton_self _
  refine ⟨c6_score_ranges.1 (prepare_learner_profile assessMid) pedAllHigh,
    c6_score_ranges.2.1 ["math"] (some (TutorSubjectsParse.parsedList ["math"])) 10
      subjectMath_eq,
    c6_score_ranges.2.2.1 500 (by norm_num), ?_⟩
  refine ⟨_, hmem, c6_score_ranges.2.2.2 [tdMid] (fun _ => 0) _ ?_ hmem⟩
  intro t ht
  rw [List.mem_singleton] at ht
  subst ht
  norm_num [tdMid]

/-- C7 (counterexample): after a first call that fell back (nothing stored), a
second call with the identical learner, tutor set, digest and hour bucket
derives the same key but still misses — the claim that the second identical
call is a cache hit fails on the fallback path. -/
theorem c7_second_identical_call_misses_after_fallback :
    (get_best_matches envAIDown).2 = CacheEffect.noStore ∧
    (get_best_matches envAIDown).1.isOk = true ∧
    get_tutor_matches none envAIDown.outcome envAIDown.procTime =
      (Except.error (), CacheEffect.noStore) ∧
    cacheGet []
      (generate_cache_key id "L1" (generate_tutors_hash id envAIDown.tutors) "c0"
        "2025101209") = none := by
  exact ⟨rfl, rfl, rfl, rfl⟩

/-- C7 (amended): with the truncated md5 layers abstracted as injective
functions, two calls with the same learner id, the same qualified-tutor id set
(in any order), the same cognitive digest and the same hour bucket derive the
same cache key, and a lookup of that key over the store written by a
successful first call hits; changing any one of the three components (or the
hour bucket) yields a different key, so the lookup misses.  Side conditions
pin the concrete formats: ids are pipe-free, and the key-data fields are
underscore-free.  (A cache hit requires the first call to have stored — the
fallback path does not; see the counterexample.) -/
theorem c7_cache_key_correct :
    ∀ (h8 h16 : String → String), Function.Injective h8 → Function.Injective h16 →
    ∀ (lid lid2 ch ch2 hour hour2 : String) (tutors tutors2 : List Tutor),
      charFree '_' lid → charFree '_' lid2 → charFree '_' ch → charFree '_' ch2 →
      charFree '_' hour → charFree '_' hour2 →
      charFree '_' (generate_tutors_hash h8 tutors) →
      charFree '_' (generate_tutors_hash h8 tutors2) →
      (∀ t ∈ tutors, charFree '|' t.id) → (∀ t ∈ tutors2, charFree '|' t.id) →
      tutors ≠ [] → tutors2 ≠ [] →
      (((tutors.map (fun t => t.id)).Perm (tutors2.map (fun t => t.id)) → lid = lid2 →
          ch = ch2 → hour = hour2 →
          generate_cache_key h16 lid (generate_tutors_hash h8 tutors) ch hour =
            generate_cache_key h16 lid2 (generate_tutors_hash h8 tutors2) ch2 hour2) ∧
        (∀ v : RankResult,
          cacheGet [(generate_cache_key h16 lid (generate_tutors_hash h8 tutors) ch hour, v)]
              (generate_cache_key h16 lid (generate_tutors_hash h8 tutors) ch hour) =
            some v) ∧
        ((¬ (tutors.map (fun t => t.id)).Perm (tutors2.map (fun t => t.id)) ∨ lid ≠ lid2 ∨
            ch ≠ ch2 ∨ hour ≠ hour2) →
          generate_cache_key h16 lid (generate_tutors_hash h8 tutors) ch hour ≠
            generate_cache_key h16 lid2 (generate_tutors_hash h8 tutors2) ch2 hour2 ∧
          ∀ v : RankResult,
            cacheGet
                [(generate_cache_key h16 lid (generate_tutors_hash h8 tutors) ch hour, v)]
                (generate_cache_key h16 lid2 (generate_tutors_hash h8 tutors2) ch2 hour2) =
              none)) := by
  intro h8 h16 inj8 inj16 lid lid2 ch ch2 hour hour2 tutors tutors2 hl hl2 hc hc2 hh hh2
    hth hth2 hid hid2 hne hne2
  have hsortfree : ∀ (ts : List Tutor), (∀ t ∈ ts, charFree '|' t.id) →
      ∀ s ∈ sortedStrings (ts.map (fun t => t.id)), charFree '|' s := by
    intro ts hts s hs
    have : s ∈ ts.map (fun t => t.id) :=
      (List.perm_insertionSort (fun a b : String => a ≤ b) _).mem_iff.mp hs
    obtain ⟨t, ht, rfl⟩ := List.mem_map.mp this
    exact hts t ht
  have hsortne : ∀ (ts : List Tutor), ts ≠ [] →
      sortedStrings (ts.map (fun t => t.id)) ≠ [] := by
    intro ts hts h0
    have hp := List.perm_insertionSort (fun a b : String => a ≤ b) (ts.map (fun t => t.id))
    rw [sortedStrings] at h0
    rw [h0] at hp
    have h00 : ts.map (fun t => t.id) = [] := hp.symm.eq_nil
    exact hts (List.map_eq_nil.mp h00)
  refine ⟨?_, ?_, ?_⟩
  · intro hperm h1 h2 h3
    subst h1
    subst h2
    subst h3
    have hth_eq : generate_tutors_hash h8 tutors = generate_tutors_hash h8 tutors2 := by
      unfold generate_tutors_hash
      rw [sortedStrings_eq_of_perm hperm]
    rw [generate_cache_key, generate_cache_key, hth_eq]
  · intro v
    simp [cacheGet, List.lookup]
  · intro hdiff
    have hkey : generate_cache_key h16 lid (generate_tutors_hash h8 tutors) ch hour ≠
        generate_cache_key h16 lid2 (generate_tutors_hash h8 tutors2) ch2 hour2 := by
      intro heq
      unfold generate_cache_key at heq
      have hlists := pyJoin_inj (by simp) (by simp)
        (by
          intro s hs
          simp only [List.mem_cons, List.not_mem_nil, or_false] at hs
          rcases hs with rfl | rfl | rfl | rfl | rfl
          · decide
          · exact hl
          · exact hth
          · exact hc
          · exact hh)
        (by
          intro s hs
          simp only [List.mem_cons, List.not_mem_nil, or_false] at hs
          rcases hs with rfl | rfl | rfl | rfl | rfl
          · decide
          · exact hl2
          · exact hth2
          · exact hc2
          · exact hh2)
        (inj16 heq)
      simp only [List.cons.injEq, and_true] at hlists
      obtain ⟨-, hlid_eq, hth_eq, hch_eq, hhour_eq⟩ := hlists
      have hperm : (tutors.map (fun t => t.id)).Perm (tutors2.map (fun t => t.id)) := by
        unfold generate_tutors_hash at hth_eq
        have hjoin := inj8 hth_eq
        have hsorted := pyJoin_inj (c := '|')
          (hsortne tutors hne) (hsortne tutors2 hne2)
          (hsortfree tutors hid) (hsortfree tutors2 hid2) hjoin
        exact perm_of_sortedStrings_eq hsorted
      rcases hdiff with h | h | h | h
      · exact h hperm
      · exact h hlid_eq
      · exact h hch_eq
      · exact h hhour_eq
    refine ⟨hkey, fun v => ?_⟩
    simp [cacheGet, List.lookup, beq_eq_false_iff_ne.mpr (Ne.symm hkey)]

/-- C7 (witness): the key theorem instantiated with the identity in place of
the truncated digests, the learner `L1`, digest `c0`, one hour bucket, and the
tutor pools `[tutorMath]` versus `[tutorT2]`, which differ in their id sets. -/
theorem c7_cache_key_correct_witness :
    (generate_cache_key id "L1" (generate_tutors_hash id [tutorMath]) "c0" "2025101210" =
      generate_cache_key id "L1" (generate_tutors_hash id [tutorMath]) "c0" "2025101210") ∧
    (∀ v : RankResult,
      cacheGet [(generate_cache_key id "L1" (generate_tutors_hash id [tutorMath]) "c0"
          "2025101210", v)]
        (generate_cache_key id "L1" (generate_tutors_hash id [tutorMath]) "c0" "2025101210") =
        some v) ∧
    (generate_cache_key id "L1" (generate_tutors_hash id [tutorMath]) "c0" "2025101210" ≠
      generate_cache_key id "L1" (generate_tutors_hash id [tutorT2]) "c0" "2025101210") := by
  obtain ⟨h1, h2, h3⟩ := c7_cache_key_correct id id Function.injective_id Function.injective_id
    "L1" "L1" "c0" "c0" "2025101210" "2025101210" [tutorMath] [tutorT2]
    (by decide) (by decide) (by decide) (by decide) (by decide) (by decide)
    (by decide) (by decide)
    (by intro t ht; rw [List.mem_singleton] at ht; subst ht; decide)
    (by intro t ht; rw [List.mem_singleton] at ht; subst ht; decide)
    (by simp) (by simp)
  exact ⟨rfl, h2, (h3 (Or.inl (by decide))).1⟩

end TutorMatch
